import Mathlib

/-!
Shallow embedding of the user-management screens of `src/src/pages/Users.tsx`
(the `Users` roster screen and the `Profile` screen that shares the file).

React state hooks become explicit record fields; each event handler becomes a
function from the current state (plus the outcome of the awaited backend call,
when the handler performs one) to the new state paired with the list of
external effects (backend calls and notifications) the handler issued, in
program order.  JavaScript's optional chaining over possibly-missing string
fields is modelled with `Option String`.
-/

namespace App122

/-- A user record as the `UserData` interface declares it, except that
`email` and `displayName` are `Option String`: the code guards both with
optional chaining (`user.email?...`), so at runtime either may be absent. -/
structure UserData where
  uid : String
  email : Option String
  displayName : Option String
  emailVerified : Bool
  createdAt : Int
deriving Repr, DecidableEq

/-- JavaScript `s.includes(t)`: `t` occurs as a contiguous substring of `s`. -/
def strIncludes (s t : String) : Bool :=
  decide (t.toList <:+: s.toList)

/-- JavaScript `s.toLowerCase()`, modelled as a per-character case map (the
theorems below use no property of the map beyond it being a character map,
so the ASCII-only `Char.toLower` stands in for the host's Unicode one). -/
def jsToLower (s : String) : String :=
  String.mk (s.data.map Char.toLower)

/-- One disjunct of the filter predicate:
`field?.toLowerCase().includes(q.toLowerCase())`.  When the field is absent
the optional chain yields `undefined`, which is falsy. -/
def optLowerIncludes (f : Option String) (q : String) : Bool :=
  match f with
  | some s => strIncludes (jsToLower s) (jsToLower q)
  | none => false

/-- The predicate of `users.filter` at lines 65-68 of `Users.tsx`. -/
def matchesQuery (u : UserData) (q : String) : Bool :=
  optLowerIncludes u.email q || optLowerIncludes u.displayName q

/-- `filteredUsers`: the roster filtered by the current search query. -/
def filteredUsers (users : List UserData) (searchQuery : String) : List UserData :=
  users.filter (fun u => matchesQuery u searchQuery)

/-- External effects a handler may issue, in program order: backend calls
(`deleteUser`, `updateUserPassword`, `updateUserProfile`) and toast
notifications (`showSuccessNotification` / `showErrorNotification`). -/
inductive Effect where
  | callDeleteUser (uid : String)
  | callUpdateUserPassword (currentPassword newPassword : String)
  | callUpdateUserProfile (displayName : String)
  | notifySuccess (msg : String)
  | notifyError (msg : String)
deriving Repr, DecidableEq

/-- Outcome of an awaited backend call: the promise resolves (`ok`) or
rejects (`err`), which sends control to the `catch` block. -/
inductive BackendResult where
  | ok
  | err
deriving Repr, DecidableEq

def Effect.isBackendCall : Effect → Bool
  | Effect.callDeleteUser _ => true
  | Effect.callUpdateUserPassword _ _ => true
  | Effect.callUpdateUserProfile _ => true
  | _ => false

def Effect.isSuccessNotif : Effect → Bool
  | Effect.notifySuccess _ => true
  | _ => false

def Effect.isErrorNotif : Effect → Bool
  | Effect.notifyError _ => true
  | _ => false

def Effect.isNotif (e : Effect) : Bool :=
  e.isSuccessNotif || e.isErrorNotif

/-- The notification messages of `Users.tsx`, verbatim. -/
def msgUserDeleted : String := "Пользователь успешно удален"

def msgUserDeleteFailed : String := "Ошибка при удалении пользователя"

def msgProfileUpdated : String := "Профиль успешно обновлен"

def msgProfileUpdateFailed : String := "Ошибка при обновлении профиля"

def msgPasswordsMismatch : String := "Пароли не совпадают"

def msgPasswordChanged : String := "Пароль успешно изменен"

def msgPasswordChangeFailed : String := "Ошибка при изменении пароля"

/-- The React state of the `Users` component (lines 20-24): one field per
`useState` hook. -/
structure UsersState where
  users : List UserData
  loading : Bool
  showPasswordPrompt : Bool
  selectedUser : Option UserData
  searchQuery : String
deriving Repr, DecidableEq

/-- The initial `Users` state, from the `useState` initialisers. -/
def initialUsersState : UsersState :=
  { users := [], loading := true, showPasswordPrompt := false,
    selectedUser := none, searchQuery := "" }

/-- `handleDeleteClick` (lines 42-45): records the target user and opens the
re-authentication prompt.  It only calls state setters, so its effect list is
empty. -/
def handleDeleteClick (user : UserData) (s : UsersState) : UsersState × List Effect :=
  ({ s with selectedUser := some user, showPasswordPrompt := true }, [])

/-- The `onClose` handler passed to `PasswordPrompt` (lines 163-166): closes
the prompt and clears the selected user; no backend call, no notification. -/
def passwordPromptOnClose (s : UsersState) : UsersState × List Effect :=
  ({ s with showPasswordPrompt := false, selectedUser := none }, [])

/-- `handleDelete` (lines 47-63).  The guard `!isAuthenticated || !selectedUser`
closes the prompt and clears the selection without touching the backend;
otherwise `deleteUser(selectedUser.uid)` is awaited (outcome `backend`), the
matching notification is shown, and the `finally` block clears the prompt and
the selection. -/
def handleDelete (isAuthenticated : Bool) (backend : BackendResult) (s : UsersState) :
    UsersState × List Effect :=
  match s.selectedUser with
  | none =>
      ({ s with showPasswordPrompt := false, selectedUser := none }, [])
  | some u =>
      if !isAuthenticated then
        ({ s with showPasswordPrompt := false, selectedUser := none }, [])
      else
        match backend with
        | BackendResult.ok =>
            ({ s with showPasswordPrompt := false, selectedUser := none },
             [Effect.callDeleteUser u.uid, Effect.notifySuccess msgUserDeleted])
        | BackendResult.err =>
            ({ s with showPasswordPrompt := false, selectedUser := none },
             [Effect.callDeleteUser u.uid, Effect.notifyError msgUserDeleteFailed])

/-- Events the subscription of lines 26-40 can deliver: a snapshot push, or a
subscription failure. -/
inductive SubEvent where
  | push (snapshot : List UserData)
  | failure
deriving Repr, DecidableEq

/-- The observer registered by `onSnapshot` (lines 29-37).  Only a
next-callback is supplied — the call passes no error observer — so a `push`
replaces the backing set and clears `loading`, while a `failure` invokes no
component code at all and leaves the state untouched. -/
def usersSubscriptionStep : SubEvent → UsersState → UsersState
  | SubEvent.push snapshot, s => { s with users := snapshot, loading := false }
  | SubEvent.failure, s => s

/-- What the body of the `Users` screen shows (lines 100-157): the loading
spinner, the "no users" empty state, or the filtered list. -/
inductive BodyView where
  | spinner
  | emptyState
  | userList (users : List UserData)
deriving Repr, DecidableEq

/-- The render branch of lines 100-157: spinner while `loading`, the empty
state when the filtered roster is empty, the list otherwise. -/
def renderBody (s : UsersState) : BodyView :=
  if s.loading then BodyView.spinner
  else if (filteredUsers s.users s.searchQuery).length = 0 then BodyView.emptyState
  else BodyView.userList (filteredUsers s.users s.searchQuery)

/-- The React state of the `Profile` component: one field per `useState`
hook (the initial `displayName` comes from the auth context). -/
structure ProfileState where
  displayName : String
  currentPassword : String
  newPassword : String
  confirmPassword : String
  loading : Bool
deriving Repr, DecidableEq

/-- `handleUpdateProfile`: sets `loading`, awaits `updateUserProfile`, shows
the matching notification, and the `finally` block clears `loading`. -/
def handleUpdateProfile (backend : BackendResult) (s : ProfileState) :
    ProfileState × List Effect :=
  match backend with
  | BackendResult.ok =>
      ({ s with loading := false },
       [Effect.callUpdateUserProfile s.displayName, Effect.notifySuccess msgProfileUpdated])
  | BackendResult.err =>
      ({ s with loading := false },
       [Effect.callUpdateUserProfile s.displayName, Effect.notifyError msgProfileUpdateFailed])

/-- `handleUpdatePassword`: when the new password and its confirmation differ,
shows one error notification and returns without touching `loading` or the
backend; otherwise sets `loading`, awaits `updateUserPassword`, on success
shows the success notification and clears the three password fields, on
rejection shows the error notification, and the `finally` block clears
`loading`. -/
def handleUpdatePassword (backend : BackendResult) (s : ProfileState) :
    ProfileState × List Effect :=
  if s.newPassword ≠ s.confirmPassword then
    (s, [Effect.notifyError msgPasswordsMismatch])
  else
    match backend with
    | BackendResult.ok =>
        ({ s with currentPassword := "", newPassword := "", confirmPassword := "",
                  loading := false },
         [Effect.callUpdateUserPassword s.currentPassword s.newPassword,
          Effect.notifySuccess msgPasswordChanged])
    | BackendResult.err =>
        ({ s with loading := false },
         [Effect.callUpdateUserPassword s.currentPassword s.newPassword,
          Effect.notifyError msgPasswordChangeFailed])

/-! Concrete sample data for instantiating theorems with hypotheses. -/

/-- A record with an email but no display name. -/
def sampleA : UserData :=
  { uid := "u1", email := some "Alice@Example.com", displayName := none,
    emailVerified := true, createdAt := 3 }

/-- A record with both fields present. -/
def sampleFull : UserData :=
  { uid := "u2", email := some "bob@example.com", displayName := some "Bob",
    emailVerified := false, createdAt := 2 }

/-- A record with neither an email nor a display name. -/
def sampleBare : UserData :=
  { uid := "u3", email := none, displayName := none,
    emailVerified := false, createdAt := 1 }

/-- A `Users` state with a delete pending on `sampleFull`. -/
def samplePendingState : UsersState :=
  { users := [sampleA, sampleFull], loading := false, showPasswordPrompt := true,
    selectedUser := some sampleFull, searchQuery := "" }

/-- A `Profile` state whose new password and confirmation differ. -/
def sampleProfileMismatch : ProfileState :=
  { displayName := "Bob", currentPassword := "old", newPassword := "a1",
    confirmPassword := "b2", loading := false }

/-! ### Supporting lemmas -/

theorem strIncludes_empty (s : String) : strIncludes s "" = true := by
  unfold strIncludes
  rw [decide_eq_true_eq]
  exact List.nil_infix

theorem jsToLower_empty : jsToLower "" = "" := rfl

theorem matchesQuery_empty (u : UserData) (h : u.email.isSome ∨ u.displayName.isSome) :
    matchesQuery u "" = true := by
  rcases h with h | h
  · rcases Option.isSome_iff_exists.mp h with ⟨e, he⟩
    simp [matchesQuery, optLowerIncludes, he, jsToLower_empty, strIncludes_empty]
  · rcases Option.isSome_iff_exists.mp h with ⟨d, hd⟩
    simp [matchesQuery, optLowerIncludes, hd, jsToLower_empty, strIncludes_empty]

/-! ### Claim theorems -/

/-- C1: invoking `handleDelete` with `isAuthenticated = false` never calls the
backend `deleteUser` (the effect list is empty), clears the pending mutation
(`selectedUser := none`) and returns to Idle (prompt closed), for every state
and every would-be backend outcome. -/
theorem handleDelete_unauthenticated_no_backend (backend : BackendResult) (s : UsersState) :
    (handleDelete false backend s).2 = [] ∧
    (handleDelete false backend s).1.showPasswordPrompt = false ∧
    (handleDelete false backend s).1.selectedUser = none := by
  cases h : s.selectedUser <;> simp [handleDelete, h]

/-- C2: when `newPassword` and `confirmPassword` differ, `handleUpdatePassword`
makes no backend call and emits exactly one failure notification: its effect
list is exactly one error toast, containing zero backend calls. -/
theorem handleUpdatePassword_mismatch_local (backend : BackendResult) (s : ProfileState)
    (h : s.newPassword ≠ s.confirmPassword) :
    (handleUpdatePassword backend s).2 = [Effect.notifyError msgPasswordsMismatch] ∧
    ((handleUpdatePassword backend s).2.countP Effect.isBackendCall = 0 ∧
     (handleUpdatePassword backend s).2.countP Effect.isErrorNotif = 1) := by
  have he : (handleUpdatePassword backend s).2 = [Effect.notifyError msgPasswordsMismatch] := by
    simp [handleUpdatePassword, h]
  refine ⟨he, by rw [he]; decide, by rw [he]; decide⟩

/-- Witness for C2 at a concrete mismatched form state. -/
theorem handleUpdatePassword_mismatch_local_witness :
    (handleUpdatePassword BackendResult.ok sampleProfileMismatch).2 =
        [Effect.notifyError msgPasswordsMismatch] ∧
    ((handleUpdatePassword BackendResult.ok sampleProfileMismatch).2.countP
        Effect.isBackendCall = 0 ∧
     (handleUpdatePassword BackendResult.ok sampleProfileMismatch).2.countP
        Effect.isErrorNotif = 1) :=
  handleUpdatePassword_mismatch_local BackendResult.ok sampleProfileMismatch (by decide)

/-- C3: `filteredUsers` returns only records whose email or display name
case-insensitively contains the term; and on records as the declared
`UserData` interface types them (both fields present), the empty term returns
the full backing set unfiltered. -/
theorem filteredUsers_only_matching (users : List UserData) (t : String) :
    (∀ u ∈ filteredUsers users t, u ∈ users ∧
        (optLowerIncludes u.email t = true ∨ optLowerIncludes u.displayName t = true)) ∧
    ((∀ u ∈ users, u.email.isSome ∧ u.displayName.isSome) →
        filteredUsers users "" = users) := by
  constructor
  · intro u hu
    have h := List.mem_filter.mp hu
    refine ⟨h.1, ?_⟩
    have h2 := h.2
    simp only [matchesQuery, Bool.or_eq_true] at h2
    exact h2
  · intro hall
    exact List.filter_eq_self.mpr fun u hu => matchesQuery_empty u (Or.inl (hall u hu).1)

/-- Witness for C3 on a one-record roster with both fields present. -/
theorem filteredUsers_only_matching_witness :
    (sampleFull ∈ [sampleFull] ∧
      (optLowerIncludes sampleFull.email "bob" = true ∨
       optLowerIncludes sampleFull.displayName "bob" = true)) ∧
    filteredUsers [sampleFull] "" = [sampleFull] :=
  ⟨(filteredUsers_only_matching [sampleFull] "bob").1 sampleFull (by decide),
   (filteredUsers_only_matching [sampleFull] "bob").2 (by decide)⟩

/-- C4, counterexample: after a subscription failure the screen does not show
the empty/error state — the initial state is unchanged (no error observer is
registered), so the body still renders the loading spinner. -/
theorem subscription_failure_not_empty_state :
    renderBody (usersSubscriptionStep SubEvent.failure initialUsersState) = BodyView.spinner ∧
    BodyView.spinner ≠ BodyView.emptyState := by
  exact ⟨by decide, by decide⟩

/-- C4, amended: a subscription failure invokes no component code (the
`onSnapshot` call registers only a next-observer), so the state is unchanged —
in particular nothing retries or re-subscribes, and nothing crashes; but no
transition to an empty/error view happens either. -/
theorem subscription_failure_state_unchanged (s : UsersState) :
    usersSubscriptionStep SubEvent.failure s = s := rfl

/-- C5: every mutation attempt ends back in Idle: `handleDelete` always closes
the prompt and clears the pending user; `handleUpdateProfile` always ends with
`loading = false`; `handleUpdatePassword` started from Idle (`loading = false`)
ends with `loading = false`, whatever the backend outcome. -/
theorem mutations_return_to_idle (isAuthenticated : Bool) (backend : BackendResult)
    (s : UsersState) (p : ProfileState) (hp : p.loading = false) :
    (handleDelete isAuthenticated backend s).1.showPasswordPrompt = false ∧
    (handleDelete isAuthenticated backend s).1.selectedUser = none ∧
    (handleUpdateProfile backend p).1.loading = false ∧
    (handleUpdatePassword backend p).1.loading = false := by
  refine ⟨?_, ?_, ?_, ?_⟩
  · cases h : s.selectedUser <;> cases isAuthenticated <;> cases backend <;>
      simp [handleDelete, h]
  · cases h : s.selectedUser <;> cases isAuthenticated <;> cases backend <;>
      simp [handleDelete, h]
  · cases backend <;> simp [handleUpdateProfile]
  · by_cases hm : p.newPassword = p.confirmPassword
    · cases backend <;> simp [handleUpdatePassword, hm]
    · simp [handleUpdatePassword, hm, hp]

/-- Witness for C5 at concrete states. -/
theorem mutations_return_to_idle_witness :
    (handleDelete true BackendResult.ok samplePendingState).1.showPasswordPrompt = false ∧
    (handleDelete true BackendResult.ok samplePendingState).1.selectedUser = none ∧
    (handleUpdateProfile BackendResult.ok sampleProfileMismatch).1.loading = false ∧
    (handleUpdatePassword BackendResult.ok sampleProfileMismatch).1.loading = false :=
  mutations_return_to_idle true BackendResult.ok samplePendingState sampleProfileMismatch
    (by decide)

/-- C6: a confirm that reaches Committing (authenticated, with a pending
target) emits exactly one notification — success on backend success, failure
on backend failure, never both; a failed re-authentication emits none, and the
prompt's cancel handler emits none. -/
theorem handleDelete_exactly_one_notif (s : UsersState) (u : UserData)
    (backend : BackendResult) (h : s.selectedUser = some u) :
    ((handleDelete true BackendResult.ok s).2.countP Effect.isSuccessNotif = 1 ∧
     (handleDelete true BackendResult.ok s).2.countP Effect.isErrorNotif = 0) ∧
    ((handleDelete true BackendResult.err s).2.countP Effect.isErrorNotif = 1 ∧
     (handleDelete true BackendResult.err s).2.countP Effect.isSuccessNotif = 0) ∧
    (handleDelete false backend s).2 = [] ∧
    (passwordPromptOnClose s).2 = [] := by
  refine ⟨⟨?_, ?_⟩, ⟨?_, ?_⟩, ?_, rfl⟩ <;>
    simp [handleDelete, h, passwordPromptOnClose, List.countP_cons, List.countP_nil,
      Effect.isSuccessNotif, Effect.isErrorNotif]

/-- Witness for C6 at a concrete pending-delete state. -/
theorem handleDelete_exactly_one_notif_witness :
    ((handleDelete true BackendResult.ok samplePendingState).2.countP
        Effect.isSuccessNotif = 1 ∧
     (handleDelete true BackendResult.ok samplePendingState).2.countP
        Effect.isErrorNotif = 0) ∧
    ((handleDelete true BackendResult.err samplePendingState).2.countP
        Effect.isErrorNotif = 1 ∧
     (handleDelete true BackendResult.err samplePendingState).2.countP
        Effect.isSuccessNotif = 0) ∧
    (handleDelete false BackendResult.ok samplePendingState).2 = [] ∧
    (passwordPromptOnClose samplePendingState).2 = [] :=
  handleDelete_exactly_one_notif samplePendingState sampleFull BackendResult.ok (by decide)

/-- C7: `handleDeleteClick` followed by the prompt's cancel handler makes no
backend call (both effect lists are empty), closes the prompt and leaves the
pending mutation `none`. -/
theorem request_then_cancel_idle (s : UsersState) (u : UserData) :
    (handleDeleteClick u s).2 = [] ∧
    (passwordPromptOnClose (handleDeleteClick u s).1).2 = [] ∧
    (passwordPromptOnClose (handleDeleteClick u s).1).1.showPasswordPrompt = false ∧
    (passwordPromptOnClose (handleDeleteClick u s).1).1.selectedUser = none := by
  simp [handleDeleteClick, passwordPromptOnClose]

/-- C8: the filter is a pure projection: its result is a sublist of the
backing set (which it never mutates — it is a function of it), and filtering
its own result with the same term returns the same sequence (idempotence). -/
theorem filteredUsers_pure_idempotent (users : List UserData) (t : String) :
    List.Sublist (filteredUsers users t) users ∧
    filteredUsers (filteredUsers users t) t = filteredUsers users t :=
  ⟨List.filter_sublist users, by simp [filteredUsers, List.filter_filter]⟩

/-- C9: an authenticated delete whose backend call fails emits exactly one
failure notification, ends in Idle with the pending mutation cleared, and
leaves the local roster untouched (no optimistic removal). -/
theorem handleDelete_failure_frame (s : UsersState) (u : UserData)
    (h : s.selectedUser = some u) :
    (handleDelete true BackendResult.err s).2 =
        [Effect.callDeleteUser u.uid, Effect.notifyError msgUserDeleteFailed] ∧
    (handleDelete true BackendResult.err s).2.countP Effect.isErrorNotif = 1 ∧
    (handleDelete true BackendResult.err s).1.showPasswordPrompt = false ∧
    (handleDelete true BackendResult.err s).1.selectedUser = none ∧
    (handleDelete true BackendResult.err s).1.users = s.users := by
  refine ⟨?_, ?_, ?_, ?_, ?_⟩ <;>
    simp [handleDelete, h, List.countP_cons, List.countP_nil, Effect.isErrorNotif]

/-- Witness for C9 at a concrete pending-delete state. -/
theorem handleDelete_failure_frame_witness :
    (handleDelete true BackendResult.err samplePendingState).2 =
        [Effect.callDeleteUser sampleFull.uid, Effect.notifyError msgUserDeleteFailed] ∧
    (handleDelete true BackendResult.err samplePendingState).2.countP
        Effect.isErrorNotif = 1 ∧
    (handleDelete true BackendResult.err samplePendingState).1.showPasswordPrompt = false ∧
    (handleDelete true BackendResult.err samplePendingState).1.selectedUser = none ∧
    (handleDelete true BackendResult.err samplePendingState).1.users =
        samplePendingState.users :=
  handleDelete_failure_frame samplePendingState sampleFull (by decide)

/-- C10: the filter is total on records with missing fields: a record in the
backing set whose display name is absent but whose email matches is included,
and a record with both fields absent is excluded for every term (the empty
term included). -/
theorem filteredUsers_missing_fields (users : List UserData) (q : String) (u v : UserData)
    (hu : u ∈ users) (_hud : u.displayName = none)
    (hue : optLowerIncludes u.email q = true)
    (hve : v.email = none) (hvd : v.displayName = none) :
    u ∈ filteredUsers users q ∧ v ∉ filteredUsers users q := by
  constructor
  · exact List.mem_filter.mpr ⟨hu, by simp [matchesQuery, hue]⟩
  · intro hv
    have h2 := (List.mem_filter.mp hv).2
    simp [matchesQuery, optLowerIncludes, hve, hvd] at h2

/-- Witness for C10 with the empty search term: the email-only record is kept,
the field-less record is dropped. -/
theorem filteredUsers_missing_fields_witness :
    sampleA ∈ filteredUsers [sampleA, sampleBare] "" ∧
    sampleBare ∉ filteredUsers [sampleA, sampleBare] "" :=
  filteredUsers_missing_fields [sampleA, sampleBare] "" sampleA sampleBare
    (by decide) (by decide) (by decide) (by decide) (by decide)

end App122
